import Mathlib

/-!
# A shallow embedding of the pipda deferred-expression engine

This file embeds, in Lean 4, the core of the `pipda` Python package:
contexts (`src/pipda/context.py`), reference nodes
(`src/pipda/reference.py`), the expression protocol
(`src/pipda/expression.py`), the operator machinery
(`src/pipda/operator.py`), verbs and their dispatch registry
(`src/pipda/verb.py`), verb-as-argument calls (`src/pipda/function.py`)
and the recursive evaluator `evaluate_expr` (`src/pipda/utils.py`).

Python values are modelled by an inductive universe `PyObj`; fallible
Python operations return `Except PyErr`.  Python `is`-identity of
registered implementation functions is modelled by tagging each
implementation with a numeric id (every Python `def` yields a distinct
object, so distinct implementations carry distinct ids).
-/

namespace Pipda

/-- The Python exception kinds raised by the embedded code paths. -/
inductive PyErr where
  /-- `pipda.context.ContextError` -/
  | contextError (msg : String)
  /-- builtin `NotImplementedError` -/
  | notImplementedError (msg : String)
  /-- builtin `TypeError` -/
  | typeError (msg : String)
  /-- builtin `AttributeError` -/
  | attributeError (msg : String)
  /-- builtin `KeyError` -/
  | keyError
  /-- builtin `IndexError` -/
  | indexError
  /-- builtin `ValueError` -/
  | valueError (msg : String)
deriving DecidableEq, Repr

/-- Whether an error is a `ContextError` (`src/pipda/context.py` line 17). -/
def PyErr.isContextError : PyErr → Bool
  | .contextError _ => true
  | _ => false

/-- The context singletons of `src/pipda/context.py`: `ContextSelect`,
`ContextEval`, `ContextPending`, `ContextMixed`.  The `Context` enum
members (`Context.SELECT`, ...) wrap these values and every evaluation
path first unwraps `Enum` members (`context = context.value`), so the
enum layer is collapsed here; `Context.UNSET`/`None` is `Option.none`
at use sites. -/
inductive Ctx where
  | select
  | eval
  | pending
  | mixed
deriving DecidableEq, Repr

/-- `ContextType`: either a context value or `None`. -/
abbrev CtxType := Option Ctx

/-- `ContextBase.ref` (`context.py` lines 62-67): the context used for
the `item` of `f[item]`; the default returns `self` and no subclass in
`context.py` overrides it. -/
def Ctx.refCtx : Ctx → Ctx := fun c => c

/-- `ContextBase.args` (`context.py` lines 69-72, overridden by
`ContextMixed.args` at lines 144-146). -/
def Ctx.argsCtx : Ctx → Ctx
  | .mixed => .select
  | c => c

/-- `ContextBase.kwargs` (`context.py` lines 74-77, overridden by
`ContextMixed.kwargs` at lines 148-150). -/
def Ctx.kwargsCtx : Ctx → Ctx
  | .mixed => .eval
  | c => c

/-- Attributes of one operator in `OPERATOR_MAPS`
(`src/pipda/operator.py` lines 13-52): display sign, unary flag and
reflected ("right") flag. -/
structure OperatorAttrs where
  sign : String
  unary : Bool
  right : Bool
deriving DecidableEq, Repr

/-- `OPERATOR_MAPS` from `src/pipda/operator.py` lines 16-52. -/
def OPERATOR_MAPS : List (String × OperatorAttrs) :=
  [ ("add", ⟨"+", false, false⟩)
  , ("radd", ⟨"+", false, true⟩)
  , ("sub", ⟨"-", false, false⟩)
  , ("rsub", ⟨"-", false, true⟩)
  , ("mul", ⟨"*", false, false⟩)
  , ("rmul", ⟨"*", false, true⟩)
  , ("matmul", ⟨"@", false, false⟩)
  , ("rmatmul", ⟨"@", false, true⟩)
  , ("truediv", ⟨"/", false, false⟩)
  , ("rtruediv", ⟨"/", false, true⟩)
  , ("floordiv", ⟨"//", false, false⟩)
  , ("rfloordiv", ⟨"//", false, true⟩)
  , ("mod", ⟨"%", false, false⟩)
  , ("rmod", ⟨"%", false, true⟩)
  , ("lshift", ⟨"<<", false, false⟩)
  , ("rlshift", ⟨"<<", false, true⟩)
  , ("rshift", ⟨">>", false, false⟩)
  , ("rrshift", ⟨">>", false, true⟩)
  , ("and_", ⟨"&", false, false⟩)
  , ("rand_", ⟨"&", false, true⟩)
  , ("xor", ⟨"^", false, false⟩)
  , ("rxor", ⟨"^", false, true⟩)
  , ("or_", ⟨"|", false, false⟩)
  , ("ror_", ⟨"|", false, true⟩)
  , ("pow", ⟨"**", false, false⟩)
  , ("rpow", ⟨"**", false, true⟩)
  , ("lt", ⟨"<", false, false⟩)
  , ("le", ⟨"<=", false, false⟩)
  , ("eq", ⟨"==", false, false⟩)
  , ("ne", ⟨"!=", false, false⟩)
  , ("gt", ⟨">", false, false⟩)
  , ("ge", ⟨">=", false, false⟩)
  , ("neg", ⟨"-", true, false⟩)
  , ("pos", ⟨"+", true, false⟩)
  , ("invert", ⟨"~", true, false⟩)
  ]

/-- `OPERATORS` from `src/pipda/expression.py` lines 15-52: for each
operator method name, the display sign and the reflected flag. -/
def OPERATORS : List (String × (String × Bool)) :=
  OPERATOR_MAPS.map (fun p => (p.1, (p.2.sign, p.2.right)))

/-- The behaviour of a registered implementation function.  The claims
only ever call a handful of concrete implementation bodies; they are
enumerated here so that implementations stay first-order data (their
interpreter is `runImpl`, defined once the value universe exists). -/
inductive ImplCode where
  /-- `_backend_generic` (`src/pipda/verb.py` lines 151-154): raises
  `NotImplementedError`. -/
  | backendGeneric (verbName : String)
  /-- an implementation `impl(data, x, ...) = data + x` on integers -/
  | addData
  /-- an implementation `impl(data, x, ...) = data - x` on integers -/
  | subData
  /-- an implementation returning its first non-data argument as-is -/
  | firstArg
  /-- an implementation returning `tuple(args)` of its non-data
  arguments (used to observe exactly what a verb body receives) -/
  | argsTuple
  /-- an implementation returning a constant integer -/
  | constInt (n : Int)
deriving DecidableEq, Repr

/-- A registered implementation function object.  Python compares
implementations by object identity (`is`); every `def` creates a
distinct object, so identity is modelled by a numeric id carried next
to the behaviour code. -/
structure Impl where
  id : Nat
  code : ImplCode
deriving DecidableEq, Repr

/-- A `functools.singledispatch` registry as used by
`src/pipda/verb.py`: the seed function (registered for `object`) plus
the explicitly registered `type -> implementation` table.  Types are
identified by their MRO, a list of class names ending in `"object"`. -/
structure SDReg where
  table : List (String × Impl)
  seed : Impl
deriving DecidableEq, Repr

/-- `singledispatch` resolution for single-inheritance hierarchies:
walk the MRO of the queried class and return the first registered
implementation; the seed (registered for `object`) catches the rest. -/
def SDReg.dispatchCls (reg : SDReg) (mro : List String) : Impl :=
  match mro.findSome? (fun c => reg.table.lookup c) with
  | some impl => impl
  | none => reg.seed

/-- `DEFAULT_BACKEND` (imported from `pipda.utils` by
`src/pipda/verb.py`; its value is the `"_default"` backend name). -/
def DEFAULT_BACKEND : String := "_default"

/-- The closure state of a verb created by `register_verb`
(`src/pipda/verb.py` lines 83-324): the ordered backend registry, the
`favorables` map, the per-implementation `contexts` store, and the
closure-level variables used by `dispatch`/`get_context`/`wrapper`. -/
structure Verb where
  /-- `wrapper.__name__` -/
  name : String
  /-- `registry`: insertion-ordered `backend -> singledispatch` map;
  the `_default` backend is inserted first (lines 159-165). -/
  registry : List (String × SDReg)
  /-- `favorables`: `backend -> favored implementation` (line 169). -/
  favorables : List (String × Impl)
  /-- `contexts`: `implementation -> (context, kw_context)`
  (lines 172-177, updated at lines 276-277). -/
  contexts : List (Impl × (CtxType × Option (List (String × Ctx))))
  /-- the original function `func` passed to `register_verb` -/
  func : Impl
  /-- the `_backend_generic` placeholder of this verb (lines 151-154) -/
  genericImpl : Impl
  /-- whether `cls is TypeHolder` held at registration (line 156) -/
  clsIsTypeHolder : Bool
  /-- the `register_verb`-level `context` argument -/
  closureCtx : CtxType
  /-- the `register_verb`-level `kw_context` argument -/
  closureKwCtx : Option (List (String × Ctx))
  /-- the `dependent` flag -/
  dependent : Bool
deriving DecidableEq, Repr

/-- One step of the backend scan inside `dispatch`
(`src/pipda/verb.py` lines 198-221): the accumulator carries
`favored_found` and the `impls` list. -/
def Verb.scanStep (v : Verb) (mro : List String)
    (acc : Bool × List (String × Impl)) (entry : String × SDReg) :
    Bool × List (String × Impl) :=
  let favoredFound := acc.1
  let impls := acc.2
  let backend := entry.1
  let fn := entry.2.dispatchCls mro
  if fn = v.genericImpl
      ∨ (fn = v.func ∧ v.clsIsTypeHolder ∧ backend = DEFAULT_BACKEND)
      ∨ (favoredFound ∧ v.favorables.lookup backend ≠ some fn) then
    (favoredFound, impls)
  else
    (favoredFound ∨ v.favorables.lookup backend = some fn,
     impls ++ [(backend, fn)])

/-- The `impls` list collected by `dispatch` when no backend is given
(`src/pipda/verb.py` lines 198-221): backends are scanned in
`reversed(registry.items())` order, i.e. most recently registered
first. -/
def Verb.dispatchScan (v : Verb) (mro : List String) :
    List (String × Impl) :=
  (v.registry.reverse.foldl (v.scanStep mro) (false, [])).2

/-- `dispatch` (`src/pipda/verb.py` lines 179-235).  Returns the chosen
implementation together with a flag recording whether the
`MultiImplementationsWarning` at lines 226-233 was emitted (warnings
are non-fatal, so they accompany a normal result). -/
def Verb.dispatchImpl (v : Verb) (mro : List String)
    (backend : Option String) : Except PyErr (Impl × Bool) :=
  match backend with
  | some b =>
    match v.registry.lookup b with
    | none =>
      .error (.notImplementedError
        (s!"[{v.name}] No implementations found for backend `{b}`."))
    | some reg => .ok (reg.dispatchCls mro, false)
  | none =>
    match v.dispatchScan mro with
    | [] => .ok ((if v.clsIsTypeHolder then v.func else v.genericImpl), false)
    | (_, fn) :: rest => .ok (fn, !rest.isEmpty)

/-- `get_context` (`src/pipda/verb.py` lines 237-244): look the
implementation up in `contexts`, falling back to the closure-level
`(context, kw_context)`; if the resulting base context is `None`,
substitute the `default` (inherited) context, keeping the stored
keyword contexts. -/
def Verb.getContext (v : Verb) (impl : Impl) (default : CtxType) :
    CtxType × Option (List (String × Ctx)) :=
  let out := (v.contexts.lookup impl).getD (v.closureCtx, v.closureKwCtx)
  if out.1 = none then (default, out.2) else out

/-- The operator function produced by `Operator._get_op_func`
(`src/pipda/operator.py` lines 141-162): either the physical
implementation found by `_find_op_func(op)` directly, or the
`left_op_func` wrapper that applies `_find_op_func(op[1:])` with its
first two arguments swapped. -/
inductive OpFunc where
  | direct (opname : String)
  | swapped (opname : String)
deriving DecidableEq, Repr

/- The Python value universe reachable by the embedded code, together
with the expression nodes.  Containers use the mutually defined list
types `PyList`/`PyPairs`/`PyFields` so that the evaluator can recurse
structurally.  `PyObj.set` keeps the insertion order of its elements
(deduplication plays no role in the claims).  `PyObj.obj` is an
instance of a user class, carrying the MRO of its class and its
attribute dictionary. -/
mutual

/-- A Python value. -/
inductive PyObj where
  | none
  | bool (b : Bool)
  | int (n : Int)
  | str (s : String)
  | tuple (xs : PyList)
  | list (xs : PyList)
  | set (xs : PyList)
  | dict (xs : PyPairs)
  | slice (start stop step : PyObj)
  | obj (mro : List String) (attrs : PyFields)
  | expr (e : Expr)

/-- A Python list of values. -/
inductive PyList where
  | nil
  | cons (hd : PyObj) (tl : PyList)

/-- Python dict entries: key/value pairs in insertion order. -/
inductive PyPairs where
  | nil
  | cons (key : PyObj) (val : PyObj) (tl : PyPairs)

/-- String-keyed fields: object attributes and keyword arguments. -/
inductive PyFields where
  | nil
  | cons (name : String) (val : PyObj) (tl : PyFields)

/-- The expression-tree nodes of pipda.
* `sym` is the `Symbolic` placeholder: the modern `Symbolic` class is
  absent from the tree (only the pre-protocol `src/pipda/symbolic.py`
  is present), but `ContextBase.eval_symbolic` (`context.py` lines
  37-38) returns the data unchanged, and the spec describes the
  placeholder as "the data to be supplied later"; `sym` therefore
  evaluates to the data itself.
* `refAttr`/`refItem` are `ReferenceAttr`/`ReferenceItem`
  (`src/pipda/reference.py`); their stored `_pipda_level` is recomputed
  by `pipdaLevel` instead of being cached.
* `opCall` is an `OperatorCall` holding the operator function built by
  `Expression._op_method` (`src/pipda/expression.py` lines 109-125).
* `verbCall` is a `VerbCall` (`src/pipda/verb.py` lines 23-80); the
  `__backend` keyword has already been popped into the `backend` field
  by `VerbCall.__init__` (line 41).
* `funcCallVerb` is a `FunctionCall` whose callee is a registered verb
  (`src/pipda/function.py` lines 24-108, branch at lines 77-90), the
  shape produced by `wrapper` when the data argument is itself an
  expression (`src/pipda/verb.py` lines 298-301). -/
inductive Expr where
  | sym
  | refAttr (parent : PyObj) (ref : String)
  | refItem (parent : PyObj) (ref : PyObj)
  | opCall (func : OpFunc) (op : String) (operands : PyList)
  | verbCall (verb : Verb) (args : PyList) (kwargs : PyFields)
      (backend : Option String)
  | funcCallVerb (verb : Verb) (args : PyList) (kwargs : PyFields)
      (backend : Option String)

end

/-- Look a name up in an attribute/field list. -/
def PyFields.lookup : PyFields → String → Option PyObj
  | .nil, _ => Option.none
  | .cons n v tl, name => if n = name then some v else tl.lookup name

/-- Length of a `PyList`. -/
def PyList.length : PyList → Nat
  | .nil => 0
  | .cons _ tl => tl.length + 1

/-- Zero-based indexing into a `PyList`. -/
def PyList.get? : PyList → Nat → Option PyObj
  | .nil, _ => Option.none
  | .cons hd _, 0 => some hd
  | .cons _ tl, n + 1 => tl.get? n

/-- Structural equality on plain (non-`Expression`) values, used for
dict-key lookup.  `Expression` overloads `__eq__` to build operator
nodes, so nodes never compare equal as dict keys here; the data
dictionaries in all claims carry plain keys. -/
def pyEqb : PyObj → PyObj → Bool
  | .none, .none => true
  | .bool a, .bool b => a = b
  | .int a, .int b => a = b
  | .str a, .str b => a = b
  | _, _ => false

/-- Look a key up among dict entries using `pyEqb`. -/
def PyPairs.lookup : PyPairs → PyObj → Option PyObj
  | .nil, _ => Option.none
  | .cons k v tl, key => if pyEqb k key then some v else tl.lookup key

/-- The MRO of a value's class, as used by `dispatch(data.__class__)`.
Booleans subclass `int` in Python.  `Expression` instances share a
common abstract base. -/
def pyclass : PyObj → List String
  | .none => ["NoneType", "object"]
  | .bool _ => ["bool", "int", "object"]
  | .int _ => ["int", "object"]
  | .str _ => ["str", "object"]
  | .tuple _ => ["tuple", "object"]
  | .list _ => ["list", "object"]
  | .set _ => ["set", "object"]
  | .dict _ => ["dict", "object"]
  | .slice _ _ _ => ["slice", "object"]
  | .obj mro _ => mro
  | .expr _ => ["Expression", "object"]

/-- `getattr(parent, "_pipda_level", 0)` as used by
`Reference.__init__` (`src/pipda/reference.py` line 26): only
`Reference` nodes carry a `_pipda_level`; everything else defaults
to 0. -/
def pipdaLevel : PyObj → Nat
  | .expr (.refAttr parent _) => pipdaLevel parent + 1
  | .expr (.refItem parent _) => pipdaLevel parent + 1
  | _ => 0

/-- Python builtin `getattr(parent, name)`: attribute retrieval on an
object instance; other embedded values carry no data attributes. -/
def pygetattr (parent : PyObj) (name : String) : Except PyErr PyObj :=
  match parent with
  | .obj _ attrs =>
    match attrs.lookup name with
    | some v => .ok v
    | Option.none => .error (.attributeError name)
  | _ => .error (.attributeError name)

/-- Python `parent[ref]`: subscription on dicts (key lookup), lists and
tuples (integer indexing, with negative indices counted from the
end). -/
def pygetitem (parent : PyObj) (ref : PyObj) : Except PyErr PyObj :=
  match parent, ref with
  | .dict entries, key =>
    match entries.lookup key with
    | some v => .ok v
    | Option.none => .error .keyError
  | .list xs, .int i =>
    let j := if i < 0 then i + xs.length else i
    if 0 ≤ j then
      match xs.get? j.toNat with
      | some v => .ok v
      | Option.none => .error .indexError
    else .error .indexError
  | .tuple xs, .int i =>
    let j := if i < 0 then i + xs.length else i
    if 0 ≤ j then
      match xs.get? j.toNat with
      | some v => .ok v
      | Option.none => .error .indexError
    else .error .indexError
  | _, _ => .error (.typeError "object is not subscriptable")

/-- `getattr` of the four context classes
(`src/pipda/context.py` lines 89-91, 105-107, 117-121, 134-137):
`ContextSelect` returns the reference name itself, `ContextEval`
performs real attribute retrieval, `ContextPending` and `ContextMixed`
raise `NotImplementedError`. -/
def Ctx.getattr : Ctx → PyObj → String → Nat → Except PyErr PyObj
  | .select, _, ref, _ => .ok (.str ref)
  | .eval, parent, ref, _ => pygetattr parent ref
  | .pending, _, _, _ =>
    .error (.notImplementedError "Pending context cannot be used to evaluate.")
  | .mixed, _, _, _ =>
    .error (.notImplementedError
      "Mixed context should be used via `.args` or `.kwargs`")

/-- `getitem` of the four context classes
(`src/pipda/context.py` lines 93-95, 109-111, 123-127, 139-142). -/
def Ctx.getitem : Ctx → PyObj → PyObj → Nat → Except PyErr PyObj
  | .select, _, ref, _ => .ok ref
  | .eval, parent, ref, _ => pygetitem parent ref
  | .pending, _, _, _ =>
    .error (.notImplementedError "Pending context cannot be used to evaluate.")
  | .mixed, _, _, _ =>
    .error (.notImplementedError
      "Mixed context should be used via `.args` or `.kwargs`")

/-- The binary functions of the host `operator` module
(`_find_op_func`, `src/pipda/operator.py` lines 128-139, resolves the
operator name to `getattr(operator, opname)`), restricted to the value
universe: integer arithmetic, string concatenation and comparisons.
Combinations outside this table raise `TypeError`, and true division
of integers is left out (its result is a float, which the claims never
touch).  Shifts follow Python in rejecting negative counts, `//` and
`%` are floor division and floor modulus. -/
def applyBaseBinOp (name : String) (a b : PyObj) : Except PyErr PyObj :=
  match name, a, b with
  | "add", .int x, .int y => .ok (.int (x + y))
  | "add", .str x, .str y => .ok (.str (x ++ y))
  | "sub", .int x, .int y => .ok (.int (x - y))
  | "mul", .int x, .int y => .ok (.int (x * y))
  | "floordiv", .int x, .int y =>
    if y = 0 then .error (.valueError "division by zero")
    else .ok (.int (Int.fdiv x y))
  | "mod", .int x, .int y =>
    if y = 0 then .error (.valueError "division by zero")
    else .ok (.int (Int.fmod x y))
  | "lshift", .int x, .int y =>
    if 0 ≤ y then .ok (.int (x * 2 ^ y.toNat))
    else .error (.valueError "negative shift count")
  | "rshift", .int x, .int y =>
    if 0 ≤ y then .ok (.int (Int.fdiv x (2 ^ y.toNat)))
    else .error (.valueError "negative shift count")
  | "pow", .int x, .int y =>
    if 0 ≤ y then .ok (.int (x ^ y.toNat))
    else .error (.typeError "negative integer power")
  | "lt", .int x, .int y => .ok (.bool (x < y))
  | "le", .int x, .int y => .ok (.bool (x ≤ y))
  | "gt", .int x, .int y => .ok (.bool (x > y))
  | "ge", .int x, .int y => .ok (.bool (x ≥ y))
  | "lt", .str x, .str y => .ok (.bool (x < y))
  | "le", .str x, .str y => .ok (.bool (x ≤ y))
  | "gt", .str x, .str y => .ok (.bool (x > y))
  | "ge", .str x, .str y => .ok (.bool (x ≥ y))
  | "eq", x, y => .ok (.bool (pyEqb x y))
  | "ne", x, y => .ok (.bool (!pyEqb x y))
  | _, _, _ => .error (.typeError "unsupported operand type")

/-- The unary functions of the host `operator` module restricted to the
value universe (`~x` is `-x - 1` on integers). -/
def applyBaseUnOp (name : String) (a : PyObj) : Except PyErr PyObj :=
  match name, a with
  | "neg", .int x => .ok (.int (-x))
  | "pos", .int x => .ok (.int x)
  | "invert", .int x => .ok (.int (-x - 1))
  | _, _ => .error (.typeError "unsupported operand type")

/-- Apply an `operator`-module function to the evaluated operand list:
one operand selects the unary table, two the binary table. -/
def applyBaseOp (name : String) (args : PyList) : Except PyErr PyObj :=
  match args with
  | .cons a .nil => applyBaseUnOp name a
  | .cons a (.cons b .nil) => applyBaseBinOp name a b
  | _ => .error (.typeError "wrong number of operands")

/-- `Operator._get_op_func` (`src/pipda/operator.py` lines 141-162):
reject names outside `OPERATOR_MAPS` with `ValueError`; for a
non-reflected name return the physical function directly; for a
reflected name `rX` return the `left_op_func` wrapper around the
physical function for `X` (`op[1:]`), which swaps its first two
arguments. -/
def getOpFunc (op : String) : Except PyErr OpFunc :=
  match OPERATOR_MAPS.lookup op with
  | Option.none => .error (.valueError s!"Not a valid operator: {op}")
  | some attrs =>
    if attrs.right then .ok (.swapped (op.drop 1)) else .ok (.direct op)

/-- Apply an operator function from `_get_op_func` to evaluated
operands.  `left_op_func(arg_a, arg_b, *args)` calls the physical
function with `(arg_b, arg_a, *args)` (`src/pipda/operator.py` lines
157-159); with fewer than two arguments Python reports a missing
positional argument. -/
def applyOpFunc : OpFunc → PyList → Except PyErr PyObj
  | .direct n, args => applyBaseOp n args
  | .swapped n, .cons a (.cons b rest) => applyBaseOp n (.cons b (.cons a rest))
  | .swapped _, _ => .error (.typeError "missing required positional argument")

/-- Run a registered implementation body on
`(data, *args, **kwargs)`. -/
def runImpl (impl : Impl) (data : PyObj) (args : PyList)
    (_kwargs : PyFields) : Except PyErr PyObj :=
  match impl.code with
  | .backendGeneric vn =>
    .error (.notImplementedError
      s!"`{vn}` is not implemented by the given backend.")
  | .addData =>
    match args with
    | .cons x _ => applyBaseBinOp "add" data x
    | .nil => .error (.typeError "missing required positional argument")
  | .subData =>
    match args with
    | .cons x _ => applyBaseBinOp "sub" data x
    | .nil => .error (.typeError "missing required positional argument")
  | .firstArg =>
    match args with
    | .cons x _ => .ok x
    | .nil => .error (.typeError "missing required positional argument")
  | .argsTuple => .ok (.tuple args)
  | .constInt n => .ok (.int n)

mutual

/-- `Expression._pipda_eval` over the node kinds.
* `sym`: the placeholder returns the data
  (`ContextBase.eval_symbolic`, `src/pipda/context.py` lines 37-38).
* `refAttr`: `ReferenceAttr._pipda_eval`
  (`src/pipda/reference.py` lines 47-61) — `None` context raises
  `ContextError` via `Reference._pipda_eval` (lines 28-36), otherwise
  the parent is evaluated with `evaluate_expr` and handed to
  `context.getattr` with the node's `_pipda_level`.
* `refItem`: `ReferenceItem._pipda_eval`
  (`src/pipda/reference.py` lines 84-93) — additionally evaluates the
  stored reference under `context.ref` before `context.getitem`.
* `opCall`: Modelled from the spec: `OperatorCall` evaluation is not in
  the tree (only `Operator._get_op_func` which builds its function is);
  §4.4 of the spec: "evaluate every operand under `context`, then
  invoke the operator implementation".
* `verbCall`: `VerbCall._pipda_eval` (`src/pipda/verb.py` lines 57-80):
  dispatch on the data's class, resolve the context via `get_context`,
  short-circuit to the raw arguments when the context is
  `ContextPending`, otherwise evaluate positional arguments under the
  base context and keyword arguments under
  `kw_context.get(key, context)`.
* `funcCallVerb`: `FunctionCall._pipda_eval` for a verb callee
  (`src/pipda/function.py` lines 62-90): evaluate the data argument
  first, dispatch on its class, resolve `ctx = ctx or context`, then
  evaluate the remaining arguments against the evaluated data. -/
def evalExpr : Expr → PyObj → CtxType → Except PyErr PyObj
  | .sym, data, _ => .ok data
  | .refAttr parent ref, data, ctx =>
    match ctx with
    | Option.none =>
      .error (.contextError
        "Cannot evaluate `ReferenceAttr` object without a context.")
    | some c =>
      match evaluateExprObj parent data (some c) with
      | .error e => .error e
      | .ok p => c.getattr p ref (pipdaLevel parent + 1)
  | .refItem parent ref, data, ctx =>
    match ctx with
    | Option.none =>
      .error (.contextError
        "Cannot evaluate `ReferenceItem` object without a context.")
    | some c =>
      match evaluateExprObj parent data (some c) with
      | .error e => .error e
      | .ok p =>
        match evaluateExprObj ref data (some c.refCtx) with
        | .error e => .error e
        | .ok r => c.getitem p r (pipdaLevel parent + 1)
  | .opCall f _ operands, data, ctx =>
    match evalObjList operands data ctx with
    | .error e => .error e
    | .ok vals => applyOpFunc f vals
  | .verbCall v args kwargs backend, data, ctx =>
    match v.dispatchImpl (pyclass data) backend with
    | .error e => .error e
    | .ok (impl, _) =>
      let ck := v.getContext impl ctx
      if ck.1 = some Ctx.pending then
        runImpl impl data args kwargs
      else
        match evalObjList args data ck.1 with
        | .error e => .error e
        | .ok eargs =>
          match evalKwargsFields kwargs data ck.1 (ck.2.getD []) with
          | .error e => .error e
          | .ok ekw => runImpl impl data eargs ekw
  | .funcCallVerb v args kwargs backend, data, ctx =>
    match args with
    | .nil => .error .indexError
    | .cons a0 rest =>
      match evaluateExprObj a0 data ctx with
      | .error e => .error e
      | .ok dt =>
        match v.dispatchImpl (pyclass dt) backend with
        | .error e => .error e
        | .ok (impl, _) =>
          let ck := v.getContext impl ctx
          let ctx2 := match ck.1 with | Option.none => ctx | some c => some c
          match evalObjList rest dt ctx2 with
          | .error e => .error e
          | .ok eargs =>
            match evalKwargsFields kwargs dt ctx2 (ck.2.getD []) with
            | .error e => .error e
            | .ok ekw => runImpl impl dt eargs ekw
termination_by structural e => e

/-- `evaluate_expr` (`src/pipda/utils.py` lines 267-306), the mixed
evaluator: expression nodes are evaluated through the node protocol;
tuples, lists and sets are rebuilt with the evaluator mapped over the
elements; slices evaluate their three components; dicts evaluate their
values and keep their keys; every other value is returned unchanged.
(The `level` counter threaded by the old signature is dropped: every
context method in the tree ignores it, and references carry their own
`_pipda_level`.  The `hasattr(expr.__class__, "_pipda_eval")` branch
for foreign objects exposing the protocol is vacuous here: in this
universe only `Expression` nodes implement it, and they are caught by
the first branch.) -/
def evaluateExprObj : PyObj → PyObj → CtxType → Except PyErr PyObj
  | .expr e, data, ctx => evalExpr e data ctx
  | .tuple xs, data, ctx =>
    match evalObjList xs data ctx with
    | .error e => .error e
    | .ok ys => .ok (.tuple ys)
  | .list xs, data, ctx =>
    match evalObjList xs data ctx with
    | .error e => .error e
    | .ok ys => .ok (.list ys)
  | .set xs, data, ctx =>
    match evalObjList xs data ctx with
    | .error e => .error e
    | .ok ys => .ok (.set ys)
  | .slice a b c, data, ctx =>
    match evaluateExprObj a data ctx with
    | .error e => .error e
    | .ok a2 =>
      match evaluateExprObj b data ctx with
      | .error e => .error e
      | .ok b2 =>
        match evaluateExprObj c data ctx with
        | .error e => .error e
        | .ok c2 => .ok (.slice a2 b2 c2)
  | .dict kvs, data, ctx =>
    match evalPairsVals kvs data ctx with
    | .error e => .error e
    | .ok kvs2 => .ok (.dict kvs2)
  | other, _, _ => .ok other
termination_by structural v => v

/-- Map `evaluate_expr` over the elements of a container or argument
list, as the generator expressions in `evaluate_expr` and
`VerbCall._pipda_eval` do. -/
def evalObjList : PyList → PyObj → CtxType → Except PyErr PyList
  | .nil, _, _ => .ok .nil
  | .cons hd tl, data, ctx =>
    match evaluateExprObj hd data ctx with
    | .error e => .error e
    | .ok hd2 =>
      match evalObjList tl data ctx with
      | .error e => .error e
      | .ok tl2 => .ok (.cons hd2 tl2)
termination_by structural l => l

/-- Evaluate the values of dict entries, keeping the keys
(`src/pipda/utils.py` lines 301-305). -/
def evalPairsVals : PyPairs → PyObj → CtxType → Except PyErr PyPairs
  | .nil, _, _ => .ok .nil
  | .cons k val tl, data, ctx =>
    match evaluateExprObj val data ctx with
    | .error e => .error e
    | .ok v2 =>
      match evalPairsVals tl data ctx with
      | .error e => .error e
      | .ok tl2 => .ok (.cons k v2 tl2)
termination_by structural p => p

/-- Evaluate keyword arguments: entry `key` is evaluated under
`kw_context.get(key, context)` (`src/pipda/verb.py` lines 76-79). -/
def evalKwargsFields : PyFields → PyObj → CtxType → List (String × Ctx) →
    Except PyErr PyFields
  | .nil, _, _, _ => .ok .nil
  | .cons k val tl, data, baseCtx, kwctx =>
    let ctxK := match kwctx.lookup k with
      | some c => some c
      | Option.none => baseCtx
    match evaluateExprObj val data ctxK with
    | .error e => .error e
    | .ok v2 =>
      match evalKwargsFields tl data baseCtx kwctx with
      | .error e => .error e
      | .ok tl2 => .ok (.cons k v2 tl2)
termination_by structural kws => kws

end

/-- `Expression.__getattr__` (`src/pipda/expression.py` lines 93-101):
Python calls `__getattr__` only when the name is not an instance
attribute; the node classes store every internal field under the
`_pipda_` prefix, and `__getattr__` itself raises `AttributeError` for
`_pipda_`-prefixed names instead of building a node.  Any other name
builds a fresh `ReferenceAttr(self, name)`. -/
def pyStartsWith (name pre : String) : Bool :=
  pre.data.isPrefixOf name.data

def exprGetattr (e : Expr) (name : String) : Except PyErr Expr :=
  if pyStartsWith name "_pipda_" then .error (.attributeError name)
  else .ok (.refAttr (.expr e) name)

/-- `Expression.__getitem__` (`src/pipda/expression.py` lines
103-107): always builds a `ReferenceItem(self, item)`. -/
def exprGetitem (e : Expr) (item : PyObj) : Expr :=
  .refItem (.expr e) item

/-- `VerbCall.PIPING` after module initialisation:
`register_piping(">>")` runs at import time, so the piping operator
sign is `">>"`. -/
def PIPING : String := ">>"

/-- Whether a value is a `VerbCall` node (`isinstance(operands[0],
VerbCall)` in `Expression._op_method`). -/
def isVerbCallObj : PyObj → Bool
  | .expr (.verbCall _ _ _ _) => true
  | _ => false

/-- The result of `Expression._op_method`: either the `NotImplemented`
sentinel (handing the operation back to the host), a built
`OperatorCall` node, or an exception. -/
inductive OpMethodResult where
  | notImplementedSentinel
  | built (e : Expr)
  | raised (err : PyErr)

/-- `Expression._op_method` (`src/pipda/expression.py` lines 109-125):
when the operator is the non-reflected spelling of the piping sign and
the first operand is a `VerbCall`, return `NotImplemented` so the verb
handles the pipe; otherwise build an
`OperatorCall(op_func, op, self, *operands)` whose function comes from
`Operator._get_op_func`. -/
def opMethod (self : Expr) (op : String) (operands : PyList) :
    OpMethodResult :=
  match OPERATORS.lookup op with
  | Option.none => .raised .keyError
  | some signRight =>
    let firstIsVerbCall : Bool :=
      match operands with
      | .cons a _ => isVerbCallObj a
      | .nil => false
    if !signRight.2
        && decide ((OPERATORS.lookup ("r" ++ op)).map Prod.fst = some PIPING)
        && firstIsVerbCall then
      .notImplementedSentinel
    else
      match getOpFunc op with
      | .error e => .raised e
      | .ok f => .built (.opCall f op (.cons (.expr self) operands))

mutual

/-- `is_expr` (`src/pipda/utils.py` lines 396-404), used by `has_expr`:
does a value contain an `Expression`?  Lists, tuples and sets are
scanned elementwise; dicts are scanned over their `(key, value)`
items; anything else is an `Expression` or not.  (Slices and object
attributes are *not* descended — faithful to the source.) -/
def hasExprObj : PyObj → Bool
  | .list xs => hasExprList xs
  | .tuple xs => hasExprList xs
  | .set xs => hasExprList xs
  | .dict kvs => hasExprPairs kvs
  | .expr _ => true
  | _ => false
termination_by structural v => v

/-- `any(is_expr(elem) for elem in expr)` over a container. -/
def hasExprList : PyList → Bool
  | .nil => false
  | .cons hd tl => hasExprObj hd || hasExprList tl
termination_by structural l => l

/-- `any(is_expr(item) for item in expr.items())` over dict items. -/
def hasExprPairs : PyPairs → Bool
  | .nil => false
  | .cons k v tl => hasExprObj k || hasExprObj v || hasExprPairs tl
termination_by structural p => p

end

mutual

/-- Whether a value contains an `Expression` node anywhere, descending
through every container position (including slices, dict keys and
object attributes).  This is the literal reading of "contains no
Expression"; it is deliberately stronger than `hasExprObj`. -/
def containsExprObj : PyObj → Bool
  | .list xs => containsExprList xs
  | .tuple xs => containsExprList xs
  | .set xs => containsExprList xs
  | .dict kvs => containsExprPairs kvs
  | .slice a b c => containsExprObj a || containsExprObj b || containsExprObj c
  | .obj _ attrs => containsExprFields attrs
  | .expr _ => true
  | _ => false
termination_by structural v => v

/-- Elementwise `containsExprObj` over a list. -/
def containsExprList : PyList → Bool
  | .nil => false
  | .cons hd tl => containsExprObj hd || containsExprList tl
termination_by structural l => l

/-- `containsExprObj` over dict keys and values. -/
def containsExprPairs : PyPairs → Bool
  | .nil => false
  | .cons k v tl => containsExprObj k || containsExprObj v || containsExprPairs tl
termination_by structural p => p

/-- `containsExprObj` over attribute fields. -/
def containsExprFields : PyFields → Bool
  | .nil => false
  | .cons _ v tl => containsExprObj v || containsExprFields tl
termination_by structural f => f

end

/-- Remove a keyword entry, as `kwargs.pop(...)` does. -/
def PyFields.erase : PyFields → String → PyFields
  | .nil, _ => .nil
  | .cons n v tl, name =>
    if n = name then tl.erase name else .cons n v (tl.erase name)

/-- `VerbCall.__init__` (`src/pipda/verb.py` lines 32-41): store the
verb and the arguments, popping the `__backend` keyword into the
backend slot.  Backends are string-named; the claims never pass
`__backend`, so a non-string value is treated as absent. -/
def mkVerbCall (v : Verb) (args : PyList) (kwargs : PyFields) : Expr :=
  .verbCall v args (kwargs.erase "__backend")
    (match kwargs.lookup "__backend" with
     | some (.str b) => some b
     | _ => Option.none)

/-- `FunctionCall.__init__` (`src/pipda/function.py` lines 34-43) for a
verb callee, mirroring `mkVerbCall`. -/
def mkFuncCallVerb (v : Verb) (args : PyList) (kwargs : PyFields) : Expr :=
  .funcCallVerb v args (kwargs.erase "__backend")
    (match kwargs.lookup "__backend" with
     | some (.str b) => some b
     | _ => Option.none)

/-- `wrapper` (`src/pipda/verb.py` lines 284-303), the function users
call.  Modelled from the spec: `is_piping` (call-site AST inspection)
is absent from the tree — only this caller is — and §6 of the spec
replaces it with "an explicit two-mode call convention ... a
boolean/enum signal `defer or evaluate now` per call"; that signal is
the `piping` argument.  A dependent verb always defers; a piping call
defers; otherwise a first positional argument is required (`TypeError`
when missing), a symbolic data argument produces a `FunctionCall`, and
a concrete data argument is evaluated immediately through
`VerbCall(wrapper, *args, **kwargs)._pipda_eval(data)`. -/
def Verb.wrapperCall (v : Verb) (piping : Bool) (args : PyList)
    (kwargs : PyFields) : Except PyErr PyObj :=
  if v.dependent then .ok (.expr (mkVerbCall v args kwargs))
  else if piping then .ok (.expr (mkVerbCall v args kwargs))
  else
    match args with
    | .nil =>
      .error (.typeError s!"Missing the first argument for verb `{v.name}`.")
    | .cons data rest =>
      if hasExprObj data then
        .ok (.expr (mkFuncCallVerb v (.cons data rest) kwargs))
      else
        evalExpr (mkVerbCall v rest kwargs) data Option.none

/-- The `(context, kw_context)` record that `get_context` consults for
an implementation: `contexts.get(impl, (context, kw_context))`
(`src/pipda/verb.py` line 243). -/
def Verb.registeredCtx (v : Verb) (impl : Impl) :
    CtxType × Option (List (String × Ctx)) :=
  (v.contexts.lookup impl).getD (v.closureCtx, v.closureKwCtx)

/-- Whether an evaluation outcome is a raised `ContextError`. -/
def raisedContextError : Except PyErr PyObj → Bool
  | .error e => e.isContextError
  | .ok _ => false

/-- The keys of dict entries, in order. -/
def PyPairs.keys : PyPairs → List PyObj
  | .nil => []
  | .cons k _ tl => k :: tl.keys

/-! ### Concrete registered functions and verbs used as evidence

These mirror the fixtures of `src/tests/test_verb.py` and the
spec's §8 scenarios. -/

/-- The `_backend_generic` placeholder of a verb named `n`. -/
def implGeneric (n : String) : Impl := ⟨0, .backendGeneric n⟩

/-- `def add(x, y): return x + y` -/
def implAdd : Impl := ⟨1, .addData⟩

/-- `def _(x, y): return x - y` (the `backend="back"` implementation of
`test_multiple_backends`) -/
def implSub : Impl := ⟨2, .subData⟩

/-- an implementation that returns its first argument untouched -/
def implFirst : Impl := ⟨3, .firstArg⟩

/-- an implementation that returns `tuple(args)` -/
def implArgs : Impl := ⟨4, .argsTuple⟩

/-- `@register_verb(int)` over `def add(x, y): return x + y`: the
default backend's `singledispatch` is seeded with `_backend_generic`
(`cls` is not `TypeHolder`), `int` is registered to the function, and
`contexts` holds the seed entry `(None, None)`. -/
def addVerb : Verb where
  name := "add"
  registry := [(DEFAULT_BACKEND, ⟨[("int", implAdd)], implGeneric "add"⟩)]
  favorables := []
  contexts := [(implGeneric "add", (Option.none, Option.none))]
  func := implAdd
  genericImpl := implGeneric "add"
  clsIsTypeHolder := false
  closureCtx := Option.none
  closureKwCtx := Option.none
  dependent := false

/-- `addVerb` after `@add.register((int, set), backend="back")` with
the subtraction implementation (`test_multiple_backends`). -/
def multiVerb : Verb where
  name := "add"
  registry :=
    [ (DEFAULT_BACKEND, ⟨[("int", implAdd)], implGeneric "add"⟩)
    , ("back", ⟨[("int", implSub), ("set", implSub)], implGeneric "add"⟩)
    ]
  favorables := []
  contexts := [(implGeneric "add", (Option.none, Option.none))]
  func := implAdd
  genericImpl := implGeneric "add"
  clsIsTypeHolder := false
  closureCtx := Option.none
  closureKwCtx := Option.none
  dependent := false

/-- `@register_verb(dict, context=Context.PENDING)` over a function
that returns its first argument raw: `register` records the
`ContextPending` value for the implementation. -/
def pendingVerb : Verb where
  name := "keep"
  registry := [(DEFAULT_BACKEND, ⟨[("dict", implFirst)], implGeneric "keep"⟩)]
  favorables := []
  contexts :=
    [ (implGeneric "keep", (some .pending, Option.none))
    , (implFirst, (some .pending, Option.none))
    ]
  func := implFirst
  genericImpl := implGeneric "keep"
  clsIsTypeHolder := false
  closureCtx := some .pending
  closureKwCtx := Option.none
  dependent := false

/-- `@register_verb(dict, context=Context.SELECT,
kw_context={"y": Context.EVAL})` over a function returning
`tuple(args)`. -/
def selVerb : Verb where
  name := "select"
  registry := [(DEFAULT_BACKEND, ⟨[("dict", implArgs)], implGeneric "select"⟩)]
  favorables := []
  contexts :=
    [ (implGeneric "select", (some .select, some [("y", .eval)]))
    , (implArgs, (some .select, some [("y", .eval)]))
    ]
  func := implArgs
  genericImpl := implGeneric "select"
  clsIsTypeHolder := false
  closureCtx := some .select
  closureKwCtx := some [("y", .eval)]
  dependent := false

/-- The generic seed of the favored-dispatch fixtures (a bare
`register_verb()` generic, `cls is TypeHolder`). -/
def fvFunc : Impl := ⟨10, .constInt 0⟩

/-- `_backend_generic` of the favored-dispatch fixtures. -/
def fvGeneric : Impl := ⟨11, .backendGeneric "fv"⟩

/-- backend `"aa"`'s (non-favored) implementation for type `T` -/
def implA : Impl := ⟨12, .constInt 1⟩

/-- backend `"bb"`'s favored implementation for type `T` -/
def implB : Impl := ⟨13, .constInt 2⟩

/-- A generic verb with two extra backends: `"aa"` registered first,
then `"bb"` with `favored=True`, both implementing type `T`; `"bb"` is
the most recently registered backend. -/
def favVerbRecentB (iF iG iA iB : Impl) : Verb where
  name := "fv"
  registry :=
    [ (DEFAULT_BACKEND, ⟨[], iF⟩)
    , ("aa", ⟨[("T", iA)], iG⟩)
    , ("bb", ⟨[("T", iB)], iG⟩)
    ]
  favorables := [("bb", iB)]
  contexts := [(iF, (Option.none, Option.none))]
  func := iF
  genericImpl := iG
  clsIsTypeHolder := true
  closureCtx := Option.none
  closureKwCtx := Option.none
  dependent := false

/-- The same verb with the backends registered in the other order:
`"bb"` (favored) first, then `"aa"`; `"aa"` is the most recently
registered backend. -/
def favVerbRecentA (iF iG iA iB : Impl) : Verb where
  name := "fv"
  registry :=
    [ (DEFAULT_BACKEND, ⟨[], iF⟩)
    , ("bb", ⟨[("T", iB)], iG⟩)
    , ("aa", ⟨[("T", iA)], iG⟩)
    ]
  favorables := [("bb", iB)]
  contexts := [(iF, (Option.none, Option.none))]
  func := iF
  genericImpl := iG
  clsIsTypeHolder := true
  closureCtx := Option.none
  closureKwCtx := Option.none
  dependent := false

/-- The data record `{"x": 5}` of the spec's select-vs-eval scenario:
a data object carrying the field `x = 5` (the spec's JSON-ish literal
denotes host-agnostic record data; attribute retrieval applies to
attribute-carrying data, cf. `test_attr_eval` in
`src/tests/test_reference.py`). -/
def dataRecX5 : PyObj := .obj ["Data", "object"] (.cons "x" (.int 5) .nil)

/-- The data record `{"a": 2}` of the spec's operator scenario. -/
def dataRecA2 : PyObj := .obj ["Data", "object"] (.cons "a" (.int 2) .nil)

/-- The plain dict `{"x": 5}` (for item access). -/
def dataDictX5 : PyObj := .dict (.cons (.str "x") (.int 5) .nil)

deriving instance DecidableEq for PyObj

/-! ### Shared lemmas -/

mutual

/-- On values containing no `Expression`, `evaluate_expr` is the
identity. -/
theorem evaluateExprObjUnchanged :
    ∀ (v : PyObj), containsExprObj v = false →
      ∀ (d : PyObj) (c : CtxType), evaluateExprObj v d c = .ok v
  | .none, _, _, _ => rfl
  | .bool _, _, _, _ => rfl
  | .int _, _, _, _ => rfl
  | .str _, _, _, _ => rfl
  | .tuple xs, h, d, c => by
    simp only [containsExprObj] at h
    simp only [evaluateExprObj, evalObjListUnchanged xs h d c]
  | .list xs, h, d, c => by
    simp only [containsExprObj] at h
    simp only [evaluateExprObj, evalObjListUnchanged xs h d c]
  | .set xs, h, d, c => by
    simp only [containsExprObj] at h
    simp only [evaluateExprObj, evalObjListUnchanged xs h d c]
  | .dict kvs, h, d, c => by
    simp only [containsExprObj] at h
    simp only [evaluateExprObj, evalPairsValsUnchanged kvs h d c]
  | .slice a b c0, h, d, c => by
    simp only [containsExprObj, Bool.or_eq_false_iff] at h
    simp only [evaluateExprObj, evaluateExprObjUnchanged a h.1.1 d c,
      evaluateExprObjUnchanged b h.1.2 d c, evaluateExprObjUnchanged c0 h.2 d c]
  | .obj _ _, _, _, _ => rfl
  | .expr _, h, _, _ => by exact absurd h (by simp [containsExprObj])
termination_by structural v => v

/-- Elementwise version of `evaluateExprObjUnchanged`. -/
theorem evalObjListUnchanged :
    ∀ (l : PyList), containsExprList l = false →
      ∀ (d : PyObj) (c : CtxType), evalObjList l d c = .ok l
  | .nil, _, _, _ => rfl
  | .cons hd tl, h, d, c => by
    simp only [containsExprList, Bool.or_eq_false_iff] at h
    simp only [evalObjList, evaluateExprObjUnchanged hd h.1 d c,
      evalObjListUnchanged tl h.2 d c]
termination_by structural l => l

/-- Dict-entry version of `evaluateExprObjUnchanged`. -/
theorem evalPairsValsUnchanged :
    ∀ (p : PyPairs), containsExprPairs p = false →
      ∀ (d : PyObj) (c : CtxType), evalPairsVals p d c = .ok p
  | .nil, _, _, _ => rfl
  | .cons k v tl, h, d, c => by
    simp only [containsExprPairs, Bool.or_eq_false_iff] at h
    simp only [evalPairsVals, evaluateExprObjUnchanged v h.1.2 d c,
      evalPairsValsUnchanged tl h.2 d c]
termination_by structural p => p

end

/-- `evaluate_expr` on a dict never touches the keys. -/
theorem evalPairsValsKeysEq :
    ∀ (kvs : PyPairs) (d : PyObj) (c : CtxType) (res : PyPairs),
      evalPairsVals kvs d c = .ok res → res.keys = kvs.keys
  | .nil, _, _, res, h => by
    simp only [evalPairsVals] at h
    cases h
    rfl
  | .cons k v tl, d, c, res, h => by
    simp only [evalPairsVals] at h
    cases hv : evaluateExprObj v d c with
    | error e => rw [hv] at h; cases h
    | ok v2 =>
      rw [hv] at h
      cases htl : evalPairsVals tl d c with
      | error e => rw [htl] at h; cases h
      | ok tl2 =>
        rw [htl] at h
        cases h
        simp only [PyPairs.keys, evalPairsValsKeysEq tl d c tl2 htl]
termination_by structural kvs => kvs


/-! ### Claims -/

/-- **C1**: Under `ContextSelect`, `getattr(parent, ref)` and
`getitem(parent, ref)` both return `ref` itself regardless of the
parent, while `ContextEval` performs real retrieval (`getattr` /
subscription); consequently `e = ref.x` evaluates to the string `"x"`
under SELECT with any data, and to `5` under EVAL with the data record
`{"x": 5}`. -/
theorem claim_C1_select_vs_eval :
    (∀ (p : PyObj) (r : String) (l : Nat),
        Ctx.select.getattr p r l = .ok (.str r))
    ∧ (∀ (p r : PyObj) (l : Nat), Ctx.select.getitem p r l = .ok r)
    ∧ (∀ (p : PyObj) (r : String) (l : Nat),
        Ctx.eval.getattr p r l = pygetattr p r)
    ∧ (∀ (p r : PyObj) (l : Nat), Ctx.eval.getitem p r l = pygetitem p r)
    ∧ (∀ (d : PyObj),
        evalExpr (.refAttr (.expr .sym) "x") d (some .select) = .ok (.str "x"))
    ∧ evalExpr (.refAttr (.expr .sym) "x") dataRecX5 (some .eval)
        = .ok (.int 5) :=
  ⟨fun _ _ _ => rfl, fun _ _ _ => rfl, fun _ _ _ => rfl, fun _ _ _ => rfl,
   fun _ => rfl, rfl⟩

/-- **C5 counterexample**: resolving a reference under the `Pending`
context raises `NotImplementedError`, not `ContextError`
(`src/pipda/context.py` lines 117-127; `test_use_pending` in
`src/tests/test_context.py` expects `NotImplementedError`), refuting
the claim at the concrete input `f.a` evaluated on `0` under
`PENDING`. -/
theorem claim_C5_counterexample :
    evalExpr (.refAttr (.expr .sym) "a") (.int 0) (some .pending)
      = .error
          (.notImplementedError "Pending context cannot be used to evaluate.")
    ∧ raisedContextError
        (evalExpr (.refAttr (.expr .sym) "a") (.int 0) (some .pending))
        = false :=
  ⟨rfl, rfl⟩

/-- **C5 (amended)**: any attempted attribute or item resolution under
the `Pending` context raises `NotImplementedError`, while evaluating a
`ReferenceAttr`/`ReferenceItem` with no context at all (`None`) raises
`ContextError`. -/
theorem claim_C5_pending_and_no_context :
    (∀ (p : PyObj) (r : String) (l : Nat),
        Ctx.pending.getattr p r l
          = .error
              (.notImplementedError
                "Pending context cannot be used to evaluate."))
    ∧ (∀ (p r : PyObj) (l : Nat),
        Ctx.pending.getitem p r l
          = .error
              (.notImplementedError
                "Pending context cannot be used to evaluate."))
    ∧ (∀ (parent : PyObj) (r : String) (d : PyObj),
        evalExpr (.refAttr parent r) d Option.none
          = .error
              (.contextError
                "Cannot evaluate `ReferenceAttr` object without a context."))
    ∧ (∀ (parent ref d : PyObj),
        evalExpr (.refItem parent ref) d Option.none
          = .error
              (.contextError
                "Cannot evaluate `ReferenceItem` object without a context."))
    ∧ (∀ (parent : PyObj) (r : String) (d : PyObj),
        raisedContextError (evalExpr (.refAttr parent r) d Option.none)
          = true) :=
  ⟨fun _ _ _ => rfl, fun _ _ _ => rfl, fun _ _ _ => rfl, fun _ _ _ => rfl,
   fun _ _ _ => rfl⟩

/-- **C9**: attribute access on an `Expression` with any name that does
not start with the internal `_pipda_` prefix — in particular `parent`,
`ref`, `func`, `data`, `args` and `kwargs` — builds a fresh
`ReferenceAttr(e, name)` instead of exposing a bookkeeping field, so
`ReferenceAttr(e, "ref")` under EVAL retrieves the data record’s own
`ref` attribute; `_pipda_`-prefixed names never build a reference
node. -/
theorem claim_C9_internal_names_namespaced :
    (∀ (e : Expr) (name : String),
        name ∈ ["parent", "ref", "func", "data", "args", "kwargs"] →
          exprGetattr e name = .ok (.refAttr (.expr e) name))
    ∧ (∀ (e : Expr) (name : String), ¬ pyStartsWith name "_pipda_" →
        exprGetattr e name = .ok (.refAttr (.expr e) name))
    ∧ (∀ (e : Expr) (name : String), pyStartsWith name "_pipda_" →
        exprGetattr e name = .error (.attributeError name))
    ∧ evalExpr (.refAttr (.expr .sym) "ref")
        (.obj ["Data", "object"] (.cons "ref" (.int 42) .nil)) (some .eval)
        = .ok (.int 42) := by
  refine ⟨fun e name h => ?_, fun e name h => ?_, fun e name h => ?_, rfl⟩
  · fin_cases h <;> rfl
  · simp only [exprGetattr, if_neg h]
  · simp only [exprGetattr, if_pos h]

/-- **C9 witness**: the listed field names and a `_pipda_` name, at
`e = sym`. -/
theorem claim_C9_witness :
    exprGetattr .sym "ref" = .ok (.refAttr (.expr .sym) "ref")
    ∧ exprGetattr .sym "kwargs" = .ok (.refAttr (.expr .sym) "kwargs")
    ∧ exprGetattr .sym "_pipda_level" = .error (.attributeError "_pipda_level") :=
  ⟨claim_C9_internal_names_namespaced.1 .sym "ref" (by simp),
   claim_C9_internal_names_namespaced.1 .sym "kwargs" (by simp),
   claim_C9_internal_names_namespaced.2.2.1 .sym "_pipda_level" (by decide)⟩

/-- **C10**: `evaluate_expr` is structure-preserving on plain
containers: a value containing no `Expression` is returned unchanged;
tuples, lists and sets are rebuilt as the same container class with
`evaluate_expr` mapped over the elements; dicts are rebuilt with
evaluated values and untouched keys; slices evaluate their three
components. -/
theorem claim_C10_evaluate_expr_structure :
    (∀ (v d : PyObj) (c : CtxType), containsExprObj v = false →
        evaluateExprObj v d c = .ok v)
    ∧ (∀ (xs : PyList) (d : PyObj) (c : CtxType),
        evaluateExprObj (.tuple xs) d c = (evalObjList xs d c).map PyObj.tuple)
    ∧ (∀ (xs : PyList) (d : PyObj) (c : CtxType),
        evaluateExprObj (.list xs) d c = (evalObjList xs d c).map PyObj.list)
    ∧ (∀ (xs : PyList) (d : PyObj) (c : CtxType),
        evaluateExprObj (.set xs) d c = (evalObjList xs d c).map PyObj.set)
    ∧ (∀ (kvs : PyPairs) (d : PyObj) (c : CtxType),
        evaluateExprObj (.dict kvs) d c = (evalPairsVals kvs d c).map PyObj.dict)
    ∧ (∀ (kvs : PyPairs) (d : PyObj) (c : CtxType) (res : PyPairs),
        evalPairsVals kvs d c = .ok res → res.keys = kvs.keys)
    ∧ (∀ (a b c0 d : PyObj) (ctx : CtxType),
        evaluateExprObj (.slice a b c0) d ctx =
          (evaluateExprObj a d ctx).bind (fun a2 =>
            (evaluateExprObj b d ctx).bind (fun b2 =>
              (evaluateExprObj c0 d ctx).map (PyObj.slice a2 b2)))) := by
  refine ⟨fun v d c h => evaluateExprObjUnchanged v h d c,
    ?_, ?_, ?_, ?_, evalPairsValsKeysEq, ?_⟩
  · intro xs d c
    cases h : evalObjList xs d c <;> simp [evaluateExprObj, h, Except.map]
  · intro xs d c
    cases h : evalObjList xs d c <;> simp [evaluateExprObj, h, Except.map]
  · intro xs d c
    cases h : evalObjList xs d c <;> simp [evaluateExprObj, h, Except.map]
  · intro kvs d c
    cases h : evalPairsVals kvs d c <;> simp [evaluateExprObj, h, Except.map]
  · intro a b c0 d ctx
    cases ha : evaluateExprObj a d ctx <;>
      cases hb : evaluateExprObj b d ctx <;>
        cases hc : evaluateExprObj c0 d ctx <;>
          simp [evaluateExprObj, ha, hb, hc, Except.bind, Except.map]

/-- **C10 witness**: a nested plain container is returned unchanged. -/
theorem claim_C10_witness :
    containsExprObj
      (.tuple (.cons (.int 1) (.cons (.str "a")
        (.cons (.dict (.cons (.str "k") (.int 2) .nil)) .nil)))) = false
    ∧ evaluateExprObj
        (.tuple (.cons (.int 1) (.cons (.str "a")
          (.cons (.dict (.cons (.str "k") (.int 2) .nil)) .nil))))
        (.int 0) Option.none
        = .ok (.tuple (.cons (.int 1) (.cons (.str "a")
            (.cons (.dict (.cons (.str "k") (.int 2) .nil)) .nil)))) :=
  ⟨rfl,
   claim_C10_evaluate_expr_structure.1
     (.tuple (.cons (.int 1) (.cons (.str "a")
       (.cons (.dict (.cons (.str "k") (.int 2) .nil)) .nil))))
     (.int 0) Option.none rfl⟩

/-- **C2**: for every reflected operator name `rX` in `OPERATOR_MAPS`,
the operator function constructed by `_get_op_func` is the base
operator `X` (`op[1:]`) with its two operands swapped, so an
`OperatorCall` for `rX` on evaluated operands `(a, b)` yields
`X(b, a)`; in particular, under EVAL with the data record `{"a": 2}`,
both `ref.a + 1` (built through `__add__`) and `1 + ref.a` (built
through `__radd__`) evaluate to `3`. -/
theorem claim_C2_reflected_operand_swap :
    (∀ (op : String) (attrs : OperatorAttrs),
        OPERATOR_MAPS.lookup op = some attrs → attrs.right = true →
          getOpFunc op = .ok (.swapped (op.drop 1))
          ∧ ∀ (a b : PyObj) (rest : PyList),
              applyOpFunc (.swapped (op.drop 1)) (.cons a (.cons b rest))
                = applyBaseOp (op.drop 1) (.cons b (.cons a rest)))
    ∧ (∀ (n op : String) (a b d : PyObj) (c : CtxType),
        containsExprObj a = false → containsExprObj b = false →
          evalExpr (.opCall (.swapped n) op (.cons a (.cons b .nil))) d c
            = applyBaseOp n (.cons b (.cons a .nil)))
    ∧ opMethod (.refAttr (.expr .sym) "a") "add" (.cons (.int 1) .nil)
        = .built (.opCall (.direct "add") "add"
            (.cons (.expr (.refAttr (.expr .sym) "a")) (.cons (.int 1) .nil)))
    ∧ evalExpr
        (.opCall (.direct "add") "add"
          (.cons (.expr (.refAttr (.expr .sym) "a")) (.cons (.int 1) .nil)))
        dataRecA2 (some .eval) = .ok (.int 3)
    ∧ opMethod (.refAttr (.expr .sym) "a") "radd" (.cons (.int 1) .nil)
        = .built (.opCall (.swapped "add") "radd"
            (.cons (.expr (.refAttr (.expr .sym) "a")) (.cons (.int 1) .nil)))
    ∧ evalExpr
        (.opCall (.swapped "add") "radd"
          (.cons (.expr (.refAttr (.expr .sym) "a")) (.cons (.int 1) .nil)))
        dataRecA2 (some .eval) = .ok (.int 3) := by
  refine ⟨fun op attrs h1 h2 => ⟨?_, fun a b rest => rfl⟩,
    fun n op a b d c ha hb => ?_, rfl, rfl, rfl, rfl⟩
  · simp [getOpFunc, h1, h2]
  · simp [evalExpr, evalObjList, evaluateExprObjUnchanged a ha d c,
      evaluateExprObjUnchanged b hb d c, applyOpFunc]

/-- **C2 witness**: the reflected addition `radd` at the operands
`(1, 2)`: the constructed function equals addition with the operands
swapped. -/
theorem claim_C2_witness :
    OPERATOR_MAPS.lookup "radd" = some ⟨"+", false, true⟩
    ∧ getOpFunc "radd" = .ok (.swapped "add")
    ∧ applyOpFunc (.swapped "add") (.cons (.int 1) (.cons (.int 2) .nil))
        = applyBaseOp "add" (.cons (.int 2) (.cons (.int 1) .nil))
    ∧ containsExprObj (.int 1) = false
    ∧ evalExpr (.opCall (.swapped "add") "radd"
          (.cons (.int 1) (.cons (.int 2) .nil))) (.int 0) Option.none
        = applyBaseOp "add" (.cons (.int 2) (.cons (.int 1) .nil)) := by
  have h := claim_C2_reflected_operand_swap
  exact ⟨rfl, (h.1 "radd" ⟨"+", false, true⟩ rfl rfl).1,
    (h.1 "radd" ⟨"+", false, true⟩ rfl rfl).2 (.int 1) (.int 2) .nil,
    rfl, h.2.1 "add" "radd" (.int 1) (.int 2) (.int 0) Option.none rfl rfl⟩

/-- **C6**: when backendless dispatch scans all backends
most-recently-registered-first and more than one matching
implementation remains, it emits the (non-fatal)
`MultiImplementationsWarning` and returns the match of the most
recently registered matching backend — the head of the scan; with
exactly one match no warning is emitted.  The `multiVerb` fixture
(`test_multiple_backends`) exhibits both cases: on `int` both the
later-registered backend `"back"` and `_default` match (warning,
`"back"` wins); on `set` only `"back"` matches (no warning). -/
theorem claim_C6_ambiguity_warning :
    (∀ (v : Verb) (mro : List String) (hd : String × Impl)
        (tl : List (String × Impl)),
        v.dispatchScan mro = hd :: tl →
          (tl ≠ [] → v.dispatchImpl mro Option.none = .ok (hd.2, true))
          ∧ (tl = [] → v.dispatchImpl mro Option.none = .ok (hd.2, false)))
    ∧ multiVerb.registry.map Prod.fst = [DEFAULT_BACKEND, "back"]
    ∧ multiVerb.dispatchScan ["int", "object"]
        = [("back", implSub), (DEFAULT_BACKEND, implAdd)]
    ∧ implSub ≠ implAdd
    ∧ multiVerb.dispatchImpl ["int", "object"] Option.none
        = .ok (implSub, true)
    ∧ multiVerb.dispatchScan ["set", "object"] = [("back", implSub)]
    ∧ multiVerb.dispatchImpl ["set", "object"] Option.none
        = .ok (implSub, false) := by
  refine ⟨fun v mro hd tl h => ⟨fun h2 => ?_, fun h2 => ?_⟩,
    rfl, by decide, by decide, rfl, by decide, rfl⟩
  · simp only [Verb.dispatchImpl, h]
    cases tl with
    | nil => exact absurd rfl h2
    | cons a as => rfl
  · subst h2
    simp only [Verb.dispatchImpl, h, List.isEmpty_nil, Bool.not_true]

/-- **C6 witness**: the general scan lemma applied to the concrete
two-backend fixture, in both the ambiguous and the unambiguous
case. -/
theorem claim_C6_witness :
    multiVerb.dispatchImpl ["int", "object"] Option.none = .ok (implSub, true)
    ∧ multiVerb.dispatchImpl ["set", "object"] Option.none
        = .ok (implSub, false) :=
  ⟨(claim_C6_ambiguity_warning.1 multiVerb ["int", "object"]
      ("back", implSub) [(DEFAULT_BACKEND, implAdd)] (by decide)).1
      (by decide),
   (claim_C6_ambiguity_warning.1 multiVerb ["set", "object"]
      ("back", implSub) [] (by decide)).2 rfl⟩

/-- **C7 counterexample**: with backend `A` (`"aa"`, non-favored
implementation for `T`) registered *after* backend `B` (`"bb"`,
favored implementation for `T`), backendless dispatch for `T` returns
`A`'s implementation — not `B`'s favored one — and emits the ambiguity
warning, because the favored short-circuit only suppresses backends
scanned after the favored match and the scan runs
most-recently-registered-first.  This refutes "always returns B's
favored implementation and never warns, regardless of registration
order". -/
theorem claim_C7_counterexample :
    (favVerbRecentA fvFunc fvGeneric implA implB).dispatchImpl
        ["T", "object"] Option.none = .ok (implA, true)
    ∧ implA ≠ implB :=
  ⟨rfl, by decide⟩

/-- **C7 (amended)**: with backends `A` (non-favored) and `B` (favored
implementation for `T`), backendless dispatch for `T` returns `B`'s
favored implementation without an ambiguity warning exactly when `B`
is the more recently registered backend (scanned first); when `A` is
more recent, `A`'s implementation is returned and the ambiguity
warning is emitted. -/
theorem claim_C7_favored_shortcircuit :
    (∀ (iF iG iA iB : Impl), iA ≠ iG → iB ≠ iG →
        (favVerbRecentB iF iG iA iB).dispatchImpl ["T", "object"] Option.none
          = .ok (iB, false))
    ∧ (∀ (iF iG iA iB : Impl), iA ≠ iG → iB ≠ iG →
        (favVerbRecentA iF iG iA iB).dispatchImpl ["T", "object"] Option.none
          = .ok (iA, true)) := by
  constructor
  · intro iF iG iA iB hA hB
    simp [Verb.dispatchImpl, Verb.dispatchScan, Verb.scanStep, favVerbRecentB,
      SDReg.dispatchCls, DEFAULT_BACKEND, List.lookup, hA, hB]
  · intro iF iG iA iB hA hB
    simp [Verb.dispatchImpl, Verb.dispatchScan, Verb.scanStep, favVerbRecentA,
      SDReg.dispatchCls, DEFAULT_BACKEND, List.lookup, hA, hB]

/-- **C7 witness**: the amended statement at the concrete
implementations of the fixture. -/
theorem claim_C7_witness :
    (favVerbRecentB fvFunc fvGeneric implA implB).dispatchImpl
        ["T", "object"] Option.none = .ok (implB, false)
    ∧ (favVerbRecentA fvFunc fvGeneric implA implB).dispatchImpl
        ["T", "object"] Option.none = .ok (implA, true) :=
  ⟨claim_C7_favored_shortcircuit.1 fvFunc fvGeneric implA implB
      (by decide) (by decide),
   claim_C7_favored_shortcircuit.2 fvFunc fvGeneric implA implB
      (by decide) (by decide)⟩

/-- **C3**: the effective context of a `VerbCall` evaluated with an
inherited context follows the precedence chain — the `(context,
kw_context)` record registered for the dispatched implementation wins;
only when its context is `None` is the inherited context used — and
after that base choice, positional arguments are evaluated under the
base context while a `kw_context` entry overrides the context for that
keyword argument alone. -/
theorem claim_C3_context_precedence :
    (∀ (v : Verb) (impl : Impl) (inh : CtxType),
        (v.registeredCtx impl).1 ≠ Option.none →
          v.getContext impl inh = v.registeredCtx impl)
    ∧ (∀ (v : Verb) (impl : Impl) (inh : CtxType),
        (v.registeredCtx impl).1 = Option.none →
          v.getContext impl inh = (inh, (v.registeredCtx impl).2))
    ∧ (∀ (v : Verb) (impl : Impl) (inh : CtxType) (data : PyObj)
        (args : PyList) (kwargs : PyFields) (be : Option String)
        (warned : Bool) (base : CtxType) (kwc : Option (List (String × Ctx))),
        v.dispatchImpl (pyclass data) be = .ok (impl, warned) →
        v.getContext impl inh = (base, kwc) →
        base ≠ some .pending →
          evalExpr (.verbCall v args kwargs be) data inh =
            match evalObjList args data base with
            | .error e => .error e
            | .ok eargs =>
              match evalKwargsFields kwargs data base (kwc.getD []) with
              | .error e => .error e
              | .ok ekw => runImpl impl data eargs ekw)
    ∧ (∀ (k : String) (val : PyObj) (rest : PyFields) (d : PyObj)
        (bc : CtxType) (kwcl : List (String × Ctx)) (c0 : Ctx),
        kwcl.lookup k = some c0 →
          evalKwargsFields (.cons k val rest) d bc kwcl =
            match evaluateExprObj val d (some c0) with
            | .error e => .error e
            | .ok v2 =>
              match evalKwargsFields rest d bc kwcl with
              | .error e => .error e
              | .ok tl2 => .ok (.cons k v2 tl2))
    ∧ (∀ (k : String) (val : PyObj) (rest : PyFields) (d : PyObj)
        (bc : CtxType) (kwcl : List (String × Ctx)),
        kwcl.lookup k = Option.none →
          evalKwargsFields (.cons k val rest) d bc kwcl =
            match evaluateExprObj val d bc with
            | .error e => .error e
            | .ok v2 =>
              match evalKwargsFields rest d bc kwcl with
              | .error e => .error e
              | .ok tl2 => .ok (.cons k v2 tl2)) := by
  refine ⟨fun v impl inh h => ?_, fun v impl inh h => ?_,
    fun v impl inh data args kwargs be warned base kwc hdisp hget hnp => ?_,
    fun k val rest d bc kwcl c0 h => ?_, fun k val rest d bc kwcl h => ?_⟩
  · simp only [Verb.getContext, Verb.registeredCtx] at h ⊢
    rw [if_neg h]
  · simp only [Verb.getContext, Verb.registeredCtx] at h ⊢
    rw [if_pos h]
  · simp only [evalExpr, hdisp, hget]
    rw [if_neg hnp]
  · simp only [evalKwargsFields, h]
  · simp only [evalKwargsFields, h]

/-- **C3 witness**: the `selVerb` fixture (base context SELECT,
`kw_context = {"y": EVAL}`) on the dict `{"x": 7}`: the positional
`f["x"]` resolves to the name `"x"` under the base SELECT context
while the keyword `y = f["x"]` resolves to `7` under its overriding
EVAL context. -/
theorem claim_C3_witness :
    selVerb.getContext implArgs Option.none
      = (some Ctx.select, some [("y", Ctx.eval)])
    ∧ evalExpr
        (.verbCall selVerb (.cons (.expr (.refItem (.expr .sym) (.str "x"))) .nil)
          (.cons "y" (.expr (.refItem (.expr .sym) (.str "x"))) .nil)
          Option.none)
        (.dict (.cons (.str "x") (.int 7) .nil)) Option.none
      = .ok (.tuple (.cons (.str "x") .nil))
    ∧ evalKwargsFields
        (.cons "y" (.expr (.refItem (.expr .sym) (.str "x"))) .nil)
        (.dict (.cons (.str "x") (.int 7) .nil)) (some .select)
        [("y", .eval)]
      = .ok (.cons "y" (.int 7) .nil) := by
  refine ⟨claim_C3_context_precedence.1 selVerb implArgs Option.none
      (by decide), ?_, ?_⟩
  · exact (claim_C3_context_precedence.2.2.1 selVerb implArgs Option.none
      (.dict (.cons (.str "x") (.int 7) .nil))
      (.cons (.expr (.refItem (.expr .sym) (.str "x"))) .nil)
      (.cons "y" (.expr (.refItem (.expr .sym) (.str "x"))) .nil)
      Option.none false (some .select) (some [("y", .eval)])
      rfl rfl (by decide)).trans rfl
  · exact (claim_C3_context_precedence.2.2.2.1 "y"
      (.expr (.refItem (.expr .sym) (.str "x"))) .nil
      (.dict (.cons (.str "x") (.int 7) .nil)) (some .select)
      [("y", .eval)] .eval rfl).trans rfl

/-- **C4**: when the dispatched implementation's effective context is
`Pending`, `VerbCall._pipda_eval` evaluates no argument: the
implementation receives the data followed by the stored positional and
keyword arguments exactly as they are (the same expression nodes); and
such a raw argument can afterwards be evaluated under EVAL with
supplied data.  The `pendingVerb` fixture returns its raw argument
`f["x"]`, which then evaluates to `5` on `{"x": 5}`. -/
theorem claim_C4_pending_skips_evaluation :
    (∀ (v : Verb) (impl : Impl) (inh : CtxType) (data : PyObj)
        (args : PyList) (kwargs : PyFields) (be : Option String)
        (warned : Bool),
        v.dispatchImpl (pyclass data) be = .ok (impl, warned) →
        (v.getContext impl inh).1 = some .pending →
          evalExpr (.verbCall v args kwargs be) data inh
            = runImpl impl data args kwargs)
    ∧ evalExpr
        (.verbCall pendingVerb
          (.cons (.expr (.refItem (.expr .sym) (.str "x"))) .nil) .nil
          Option.none)
        dataDictX5 Option.none
      = .ok (.expr (.refItem (.expr .sym) (.str "x")))
    ∧ evaluateExprObj (.expr (.refItem (.expr .sym) (.str "x"))) dataDictX5
        (some .eval) = .ok (.int 5) := by
  refine ⟨fun v impl inh data args kwargs be warned hdisp hpend => ?_,
    rfl, rfl⟩
  simp only [evalExpr, hdisp]
  rw [if_pos hpend]

/-- **C4 witness**: the pending short-circuit applied to the concrete
`pendingVerb` call. -/
theorem claim_C4_witness :
    evalExpr
        (.verbCall pendingVerb
          (.cons (.expr (.refItem (.expr .sym) (.str "x"))) .nil) .nil
          Option.none)
        dataDictX5 Option.none
      = runImpl implFirst dataDictX5
          (.cons (.expr (.refItem (.expr .sym) (.str "x"))) .nil) .nil :=
  claim_C4_pending_skips_evaluation.1 pendingVerb implFirst Option.none
    dataDictX5 (.cons (.expr (.refItem (.expr .sym) (.str "x"))) .nil) .nil
    Option.none false rfl rfl

/-- **C8**: calling a non-dependent registered verb outside piping
position with zero positional arguments raises the
missing-data-argument `TypeError`; with a concrete (expression-free)
first argument the call evaluates immediately through
`VerbCall(wrapper, *args, **kwargs)._pipda_eval(data)` — concretely,
`add(2, 1)` returns `3` at once. -/
theorem claim_C8_zero_args_and_immediate :
    (∀ (v : Verb) (kwargs : PyFields), v.dependent = false →
        v.wrapperCall false .nil kwargs
          = .error
              (.typeError s!"Missing the first argument for verb `{v.name}`."))
    ∧ (∀ (v : Verb) (data : PyObj) (rest : PyList) (kwargs : PyFields),
        v.dependent = false → hasExprObj data = false →
          v.wrapperCall false (.cons data rest) kwargs
            = evalExpr (mkVerbCall v rest kwargs) data Option.none)
    ∧ addVerb.wrapperCall false .nil .nil
        = .error (.typeError "Missing the first argument for verb `add`.")
    ∧ addVerb.wrapperCall false (.cons (.int 2) (.cons (.int 1) .nil)) .nil
        = .ok (.int 3) := by
  refine ⟨fun v kwargs h => ?_, fun v data rest kwargs h h2 => ?_, rfl, rfl⟩
  · simp only [Verb.wrapperCall, h]
    rfl
  · simp only [Verb.wrapperCall, h, h2]
    rfl

/-- **C8 witness**: both branches at the `addVerb` fixture. -/
theorem claim_C8_witness :
    addVerb.wrapperCall false .nil .nil
      = .error (.typeError "Missing the first argument for verb `add`.")
    ∧ addVerb.wrapperCall false (.cons (.int 2) (.cons (.int 1) .nil)) .nil
      = evalExpr (mkVerbCall addVerb (.cons (.int 1) .nil) .nil) (.int 2)
          Option.none :=
  ⟨(claim_C8_zero_args_and_immediate.1 addVerb .nil rfl).trans rfl,
   claim_C8_zero_args_and_immediate.2.1 addVerb (.int 2)
     (.cons (.int 1) .nil) .nil rfl rfl⟩

end Pipda
